import Mathlib

set_option linter.unusedVariables false

/-! Shallow embedding of the Market Widget API proxy server
(src/server/index.js of The-Citadel-Report).

The node-cache store is modelled as a function from string keys to the
stored value together with its expiry timestamp; time is an explicit
natural-number parameter (seconds).  Each external HTTP call is
modelled as an `Except`-valued input supplied by the environment: an
`Except.error` collapses every failure the JavaScript `catch` block
would see (missing API key, network error, timeout, provider-reported
failure status), exactly as the single `catch` in each fetcher does.
Prices are rationals; JavaScript `null` price fields are `Option.none`
and the coercion `null * x = 0` performed by JS arithmetic is made
explicit by `numOrZero`. -/

/-- node-cache store for one payload type: a key maps to its stored
value and expiry time (expiry 0 means no expiry). -/
def CacheT (α : Type) : Type := String → Option (α × Nat)

def emptyCache {α : Type} : CacheT α := fun _ => none

/-- node-cache `get`: an entry is returned only while it is not
expired (node-cache treats an entry as expired iff its expiry is
nonzero and strictly in the past, and then reports the key as absent);
an expired entry behaves exactly like a missing one. -/
def cacheGet {α : Type} (c : CacheT α) (k : String) (now : Nat) : Option α :=
  match c k with
  | some (v, t) => if t = 0 ∨ now ≤ t then some v else none
  | none => none

/-- node-cache `set` with a ttl in seconds: the entry's expiry becomes
`now + ttl`, and a ttl of 0 means no expiry. -/
def cacheSet {α : Type} (c : CacheT α) (k : String) (v : α) (ttl : Nat) (now : Nat) : CacheT α :=
  fun q => if q = k then some (v, if ttl = 0 then 0 else now + ttl) else c q

/-- `CACHE_TTL = parseInt(process.env.CACHE_TTL) || 30`: an absent or
unparseable value (modelled as `none`) and a parsed 0 both fall back
to 30. -/
def cacheTtlOf (env : Option Nat) : Nat :=
  match env with
  | some n => if n = 0 then 30 else n
  | none => 30

/-! ### Metals fetcher (fetchMetalsPrices) -/

/-- One metal entry of the normalized metals payload:
`{ price, timestamp }` where `price` may be `null`. -/
structure MQuote where
  price : Option ℚ
  timestamp : Nat
deriving DecidableEq

/-- The normalized metals payload `{ gold, silver }`, plus the `stale`
tag the fallback path would spread onto it (absent = `false` on every
value actually written to the cache). -/
structure MetalsData where
  gold : MQuote
  silver : MQuote
  stale : Bool := false
deriving DecidableEq

/-- The `rates` object of a successful Metals API response; each field
may be absent. -/
structure MetalsRates where
  USDXAU : Option ℚ
  XAU : Option ℚ
  USDXAG : Option ℚ
  XAG : Option ℚ
deriving DecidableEq

/-- A Metals API response that passed the `response.data.success`
check. -/
structure MetalsApiOk where
  rates : MetalsRates
  timestamp : Nat
deriving DecidableEq

/-- JS truthiness of a numeric field: an absent value and 0 are both
falsy. -/
def truthyNum (o : Option ℚ) : Option ℚ :=
  match o with
  | some v => if v = 0 then none else some v
  | none => none

/-- `rates.USDXAU || (rates.XAU ? (1 / rates.XAU) : null)` -/
def metalPrice (direct inv : Option ℚ) : Option ℚ :=
  match truthyNum direct with
  | some v => some v
  | none => (truthyNum inv).map (fun r => 1 / r)

/-- The `result` object built from a successful Metals API response. -/
def normalizeMetals (resp : MetalsApiOk) : MetalsData :=
  { gold := { price := metalPrice resp.rates.USDXAU resp.rates.XAU
              timestamp := resp.timestamp }
    silver := { price := metalPrice resp.rates.USDXAG resp.rates.XAG
                timestamp := resp.timestamp }
    stale := false }

/-- `fetchMetalsPrices`: cache hit returns the cached value; on a miss
a successful upstream call is normalized, written to the cache with
the default ttl and returned; on a failed upstream call the catch
block re-reads the cache (node-cache `get`, which hides expired
entries) and returns the value tagged stale if present, else
propagates the error.  Returns the fetcher outcome and the updated
cache. -/
def fetchMetalsPrices (cfgTtl : Nat) (c : CacheT MetalsData) (now : Nat)
    (upstream : Except String MetalsApiOk) :
    Except String MetalsData × CacheT MetalsData :=
  match cacheGet c "metals_prices" now with
  | some cached => (Except.ok cached, c)
  | none =>
    match upstream with
    | Except.ok resp =>
        let result := normalizeMetals resp
        (Except.ok result, cacheSet c "metals_prices" result cfgTtl now)
    | Except.error e =>
        match cacheGet c "metals_prices" now with
        | some staleCache => (Except.ok { staleCache with stale := true }, c)
        | none => (Except.error e, c)

/-! ### Stocks fetcher (fetchStockIndices) -/

/-- A raw Yahoo Finance quote as consumed by `fetchStockIndices`. -/
structure YRaw where
  regularMarketPrice : ℚ
  regularMarketPreviousClose : ℚ
  regularMarketChange : ℚ
  regularMarketChangePercent : ℚ
  marketState : String
  regularMarketTime : Nat
deriving DecidableEq

/-- One normalized index entry of the stocks payload. -/
structure YQuote where
  price : ℚ
  previousClose : ℚ
  change : ℚ
  changePercent : ℚ
  marketState : String
  timestamp : Nat
deriving DecidableEq

/-- The normalized stocks payload `{ sp500, dow }` plus the stale tag
(absent = `false` on every cached value). -/
structure StocksData where
  sp500 : YQuote
  dow : YQuote
  stale : Bool := false
deriving DecidableEq

def normalizeQuote (q : YRaw) : YQuote :=
  { price := q.regularMarketPrice
    previousClose := q.regularMarketPreviousClose
    change := q.regularMarketChange
    changePercent := q.regularMarketChangePercent
    marketState := q.marketState
    timestamp := q.regularMarketTime }

/-- The `result` object built from the two Yahoo quotes. -/
def normalizeStocks (sp500 dow : YRaw) : StocksData :=
  { sp500 := normalizeQuote sp500
    dow := normalizeQuote dow
    stale := false }

/-- `fetchStockIndices`, same shape as `fetchMetalsPrices` with key
`stock_indices` and the default ttl. -/
def fetchStockIndices (cfgTtl : Nat) (c : CacheT StocksData) (now : Nat)
    (upstream : Except String (YRaw × YRaw)) :
    Except String StocksData × CacheT StocksData :=
  match cacheGet c "stock_indices" now with
  | some cached => (Except.ok cached, c)
  | none =>
    match upstream with
    | Except.ok quotes =>
        let result := normalizeStocks quotes.1 quotes.2
        (Except.ok result, cacheSet c "stock_indices" result cfgTtl now)
    | Except.error e =>
        match cacheGet c "stock_indices" now with
        | some staleCache => (Except.ok { staleCache with stale := true }, c)
        | none => (Except.error e, c)

/-! ### The /api/prices handler -/

/-- The gold/silver objects of the /api/prices response. -/
structure MetalOut where
  symbol : String
  name : String
  price : Option ℚ
  previousClose : ℚ
  change : ℚ
  changePercent : ℚ
  unit : String
deriving DecidableEq

/-- The sp500/dow objects of the /api/prices response. -/
structure IndexOut where
  symbol : String
  name : String
  price : ℚ
  previousClose : ℚ
  change : ℚ
  changePercent : ℚ
  marketState : String
  unit : String
deriving DecidableEq

/-- The /api/prices response envelope.  `warnings` is omitted
(`none`) when the warning list is empty, as in
`warnings.length > 0 ? warnings : undefined`. -/
structure PricesResponse where
  success : Bool
  gold : Option MetalOut
  silver : Option MetalOut
  sp500 : Option IndexOut
  dow : Option IndexOut
  lastUpdated : Nat
  warnings : Option (List String)
deriving DecidableEq

/-- JS arithmetic on a possibly-null number: `null * x` is `0 * x`. -/
def numOrZero (o : Option ℚ) : ℚ := o.getD 0

/-- The GET /api/prices handler body after the `Promise.allSettled`
join: takes the two settled outcomes and assembles the envelope.
Warnings are pushed in source order (metals first, then stocks);
`success` is unconditionally `true`. -/
def pricesHandler (metalsResult : Except String MetalsData)
    (stocksResult : Except String StocksData) (now : Nat) : PricesResponse :=
  let w1 : List String :=
    match metalsResult with
    | Except.ok m => if m.stale then ["Metals data may be stale"] else []
    | Except.error _ => ["Unable to fetch metals prices"]
  let w2 : List String :=
    match stocksResult with
    | Except.ok s => if s.stale then ["Stock indices may be stale"] else []
    | Except.error _ => ["Unable to fetch stock indices"]
  let warnings := w1 ++ w2
  let metals := metalsResult.toOption
  let stocks := stocksResult.toOption
  { success := true
    gold := metals.map fun m =>
      { symbol := "XAU"
        name := "Gold"
        price := m.gold.price
        previousClose := numOrZero m.gold.price * 0.998
        change := numOrZero m.gold.price * 0.002
        changePercent := 0.2
        unit := "USD/oz" }
    silver := metals.map fun m =>
      { symbol := "XAG"
        name := "Silver"
        price := m.silver.price
        previousClose := numOrZero m.silver.price * 0.995
        change := numOrZero m.silver.price * 0.005
        changePercent := 0.5
        unit := "USD/oz" }
    sp500 := stocks.map fun s =>
      { symbol := "^GSPC"
        name := "S&P 500"
        price := s.sp500.price
        previousClose := s.sp500.previousClose
        change := s.sp500.change
        changePercent := s.sp500.changePercent
        marketState := s.sp500.marketState
        unit := "points" }
    dow := stocks.map fun s =>
      { symbol := "^DJI"
        name := "Dow Jones"
        price := s.dow.price
        previousClose := s.dow.previousClose
        change := s.dow.change
        changePercent := s.dow.changePercent
        marketState := s.dow.marketState
        unit := "points" }
    lastUpdated := now
    warnings := if warnings.length > 0 then some warnings else none }

/-! ### News fetchers -/

/-- A raw NewsAPI article as consumed by the news fetchers.  Titles
are modelled as character lists (may be `null`); the other fields are
opaque strings. -/
structure RawArticle where
  title : Option (List Char)
  description : Option String
  sourceName : String
  url : String
  urlToImage : Option String
  publishedAt : String
deriving DecidableEq

/-- A successful NewsAPI response (`status === 'ok'`). -/
structure NewsApiOk where
  articles : List RawArticle
deriving DecidableEq

/-- The projected article shape of `fetchNews`:
`{ title, description, source, url, publishedAt }`. -/
structure NewsArticle where
  title : Option (List Char)
  description : Option String
  source : String
  url : String
  publishedAt : String
deriving DecidableEq

def projectNews (a : RawArticle) : NewsArticle :=
  { title := a.title
    description := a.description
    source := a.sourceName
    url := a.url
    publishedAt := a.publishedAt }

/-- `fetchNews`: maps articles with no filtering at all, caches for
43200 seconds under key `news`, with the same catch/stale-read
structure as the other fetchers. -/
def fetchNews (c : CacheT (List NewsArticle)) (now : Nat)
    (upstream : Except String NewsApiOk) :
    Except String (List NewsArticle) × CacheT (List NewsArticle) :=
  match cacheGet c "news" now with
  | some cached => (Except.ok cached, c)
  | none =>
    match upstream with
    | Except.ok resp =>
        let articles := resp.articles.map projectNews
        (Except.ok articles, cacheSet c "news" articles 43200 now)
    | Except.error e =>
        match cacheGet c "news" now with
        | some staleCache => (Except.ok staleCache, c)
        | none => (Except.error e, c)

/-- The character class kept by `replace(/[^a-z0-9]/g, '')`. -/
def isKeyChar (ch : Char) : Bool :=
  (97 ≤ ch.toNat && ch.toNat ≤ 122) || (48 ≤ ch.toNat && ch.toNat ≤ 57)

/-- `title.toLowerCase().slice(0, 50).replace(/[^a-z0-9]/g, '')`:
lowercase, then the first 50 characters, then strip everything outside
`[a-z0-9]`. -/
def normKey (t : List Char) : List Char :=
  ((t.map Char.toLower).take 50).filter isKeyChar

/-- `article.title?.toLowerCase()...`: a `null` title yields an
`undefined` key. -/
def articleKey (a : RawArticle) : Option (List Char) :=
  a.title.map normKey

/-- The dedup `filter` of fetchMacroNews / fetchInflationNews /
fetchGoldNews (their bodies are identical): drop an article whose key
is already in the `seen` set, otherwise add the key and keep it. -/
def dedupFilter (seen : List (Option (List Char))) :
    List RawArticle → List RawArticle
  | [] => []
  | a :: rest =>
    let k := articleKey a
    if k ∈ seen then dedupFilter seen rest
    else a :: dedupFilter (k :: seen) rest

/-- The projected article shape of the macro/inflation/gold fetchers
(adds `image`). -/
structure MacroArticle where
  title : Option (List Char)
  description : Option String
  source : String
  url : String
  image : Option String
  publishedAt : String
deriving DecidableEq

def projectMacro (a : RawArticle) : MacroArticle :=
  { title := a.title
    description := a.description
    source := a.sourceName
    url := a.url
    image := a.urlToImage
    publishedAt := a.publishedAt }

/-- Dedup, project, `slice(0, 10)` — the pipeline shared verbatim by
fetchMacroNews, fetchInflationNews and fetchGoldNews. -/
def macroArticles (raws : List RawArticle) : List MacroArticle :=
  ((dedupFilter [] raws).map projectMacro).take 10

/-- `fetchMacroNews`: key `macro_news`, ttl 600. -/
def fetchMacroNews (c : CacheT (List MacroArticle)) (now : Nat)
    (upstream : Except String NewsApiOk) :
    Except String (List MacroArticle) × CacheT (List MacroArticle) :=
  match cacheGet c "macro_news" now with
  | some cached => (Except.ok cached, c)
  | none =>
    match upstream with
    | Except.ok resp =>
        let articles := macroArticles resp.articles
        (Except.ok articles, cacheSet c "macro_news" articles 600 now)
    | Except.error e =>
        match cacheGet c "macro_news" now with
        | some staleCache => (Except.ok staleCache, c)
        | none => (Except.error e, c)

/-- `fetchInflationNews`: key `inflation_news`, ttl 600, body
otherwise identical to `fetchMacroNews`. -/
def fetchInflationNews (c : CacheT (List MacroArticle)) (now : Nat)
    (upstream : Except String NewsApiOk) :
    Except String (List MacroArticle) × CacheT (List MacroArticle) :=
  match cacheGet c "inflation_news" now with
  | some cached => (Except.ok cached, c)
  | none =>
    match upstream with
    | Except.ok resp =>
        let articles := macroArticles resp.articles
        (Except.ok articles, cacheSet c "inflation_news" articles 600 now)
    | Except.error e =>
        match cacheGet c "inflation_news" now with
        | some staleCache => (Except.ok staleCache, c)
        | none => (Except.error e, c)

/-- `fetchGoldNews`: key `gold_news`, ttl 600, body otherwise
identical to `fetchMacroNews`. -/
def fetchGoldNews (c : CacheT (List MacroArticle)) (now : Nat)
    (upstream : Except String NewsApiOk) :
    Except String (List MacroArticle) × CacheT (List MacroArticle) :=
  match cacheGet c "gold_news" now with
  | some cached => (Except.ok cached, c)
  | none =>
    match upstream with
    | Except.ok resp =>
        let articles := macroArticles resp.articles
        (Except.ok articles, cacheSet c "gold_news" articles 600 now)
    | Except.error e =>
        match cacheGet c "gold_news" now with
        | some staleCache => (Except.ok staleCache, c)
        | none => (Except.error e, c)

/-- Does `needle` occur at the start of `hay`? -/
def startsWithL (needle hay : List Char) : Bool :=
  match needle, hay with
  | [], _ => true
  | _ :: _, [] => false
  | a :: as, b :: bs => a == b && startsWithL as bs

/-- JS `String.prototype.includes`: does `needle` occur anywhere in
`hay`? -/
def hasSubstr (hay needle : List Char) : Bool :=
  match hay with
  | [] => needle.isEmpty
  | _ :: t => startsWithL needle hay || hasSubstr t needle

/-- The provider's redaction marker checked by
`article.title.includes('[Removed]')`. -/
def removedMarker : List Char := "[Removed]".toList

/-- The filter of `fetchBullishHeadlines`: first the seen-key check,
then `!article.title || article.title.includes('[Removed]')` (a null
or empty title is falsy); only a kept article adds its key to the
seen set. -/
def bullishFilter (seen : List (Option (List Char))) :
    List RawArticle → List RawArticle
  | [] => []
  | a :: rest =>
    let k := articleKey a
    if k ∈ seen then bullishFilter seen rest
    else
      match a.title with
      | none => bullishFilter seen rest
      | some t =>
        if t.isEmpty || hasSubstr t removedMarker then bullishFilter seen rest
        else a :: bullishFilter (k :: seen) rest

/-- The projected headline shape of `fetchBullishHeadlines`:
`{ title, source, url, publishedAt }`. -/
structure Headline where
  title : Option (List Char)
  source : String
  url : String
  publishedAt : String
deriving DecidableEq

def projectHeadline (a : RawArticle) : Headline :=
  { title := a.title
    source := a.sourceName
    url := a.url
    publishedAt := a.publishedAt }

/-- Filter, project, `slice(0, 25)` as in fetchBullishHeadlines. -/
def bullishHeadlines (raws : List RawArticle) : List Headline :=
  ((bullishFilter [] raws).map projectHeadline).take 25

/-- `fetchBullishHeadlines`: key `bullish_headlines`, ttl 600. -/
def fetchBullishHeadlines (c : CacheT (List Headline)) (now : Nat)
    (upstream : Except String NewsApiOk) :
    Except String (List Headline) × CacheT (List Headline) :=
  match cacheGet c "bullish_headlines" now with
  | some cached => (Except.ok cached, c)
  | none =>
    match upstream with
    | Except.ok resp =>
        let headlines := bullishHeadlines resp.articles
        (Except.ok headlines, cacheSet c "bullish_headlines" headlines 600 now)
    | Except.error e =>
        match cacheGet c "bullish_headlines" now with
        | some staleCache => (Except.ok staleCache, c)
        | none => (Except.error e, c)

/-- The envelope of the single-source news endpoints.  The success
branch has no `error` field and the failure branch has no
`lastUpdated` field, modelled as `none`. -/
structure NewsResponse where
  success : Bool
  articles : List NewsArticle
  error : Option String
  lastUpdated : Option Nat
deriving DecidableEq

/-- The try/catch body shared by every single-source news endpoint:
`{success:true, articles, lastUpdated}` on success,
`{success:false, error, articles:[]}` on a thrown error. -/
def newsEndpoint (result : Except String (List NewsArticle)) (now : Nat) :
    NewsResponse :=
  match result with
  | Except.ok articles =>
      { success := true, articles := articles, error := none, lastUpdated := some now }
  | Except.error e =>
      { success := false, articles := [], error := some e, lastUpdated := none }

/-! ### The /api/performance handler -/

/-- One entry of the performance data list: `{ name, return }`
(`return` is a reserved word in Lean, rendered `ret`). -/
structure PerfRecord where
  name : String
  ret : Int
deriving DecidableEq

/-- JS `Math.round`: round half toward positive infinity. -/
def jsRound (x : ℚ) : Int := Int.floor (x + 1 / 2)

/-- `((endPrice - startPrice) / startPrice) * 100`, rounded. -/
def computeReturn (startPrice endPrice : ℚ) : Int :=
  jsRound ((endPrice - startPrice) / startPrice * 100)

/-- `fetchHistory`: the whole body is inside its own try/catch, so a
thrown fetch yields `null`; a `null` or too-short history also yields
`null`; otherwise the record is built from the first and last monthly
closes.  The upstream outcome is `Except.error` for a throw, and
`Except.ok none` for a falsy `history` value. -/
def fetchHistory (name : String)
    (outcome : Except String (Option (List ℚ))) : Option PerfRecord :=
  match outcome with
  | Except.error _ => none
  | Except.ok none => none
  | Except.ok (some history) =>
      if history.length > 1 then
        some { name := name
               ret := computeReturn (history.headD 0) (history.getLastD 0) }
      else none

/-- The fixed symbol table of the performance handler. -/
def perfSymbols : List (String × String) :=
  [("GC=F", "Gold"), ("SI=F", "Silver"), ("^GSPC", "S&P 500"),
   ("^DJI", "Dow Jones"), ("VNQ", "Real Estate"), ("AGG", "Bonds")]

/-- The two static records pushed after the live results. -/
def synthRecords : List PerfRecord :=
  [{ name := "CDs/Savings", ret := 49 }, { name := "Cash (USD)", ret := -44 }]

/-- `assetData.sort((a, b) => b.return - a.return)`: stable sort,
descending by return. -/
def perfSort (l : List PerfRecord) : List PerfRecord :=
  l.mergeSort (fun a b => b.ret ≤ a.ret)

/-- The fresh-computation path of the performance handler: map
`fetchHistory` over the (name, outcome) pairs, drop the `null`
results, push the two static records, sort descending. -/
def performanceData (inputs : List (String × Except String (Option (List ℚ)))) :
    List PerfRecord :=
  let results := inputs.map fun p => fetchHistory p.1 p.2
  let assetData := results.filterMap id ++ synthRecords
  perfSort assetData

/-- The /api/performance response envelope. -/
structure PerfResponse where
  success : Bool
  data : List PerfRecord
  error : Option String
deriving DecidableEq

/-- The GET /api/performance handler: cached data is returned as a
success envelope without recomputation; on a miss the outer try
either computes and caches the data for 3600 seconds (the per-symbol
outcomes are supplied as `inputs`) or, if the outer body throws
(`Except.error`), answers `{success:false, error, data:[]}`. -/
def perfHandler (c : CacheT (List PerfRecord)) (now : Nat)
    (inputs : Except String (List (String × Except String (Option (List ℚ))))) :
    PerfResponse × CacheT (List PerfRecord) :=
  match cacheGet c "performance_data" now with
  | some cached => ({ success := true, data := cached, error := none }, c)
  | none =>
    match inputs with
    | Except.ok ins =>
        let assetData := performanceData ins
        ({ success := true, data := assetData, error := none },
         cacheSet c "performance_data" assetData 3600 now)
    | Except.error e =>
        ({ success := false, data := [], error := some e }, c)

/-! ### The /api/health handler -/

/-- The /api/health response body. -/
structure HealthResponse where
  status : String
  timestamp : Nat
  cacheTTL : Nat
deriving DecidableEq

/-- The GET /api/health handler: a constant body built only from the
configured ttl and the clock; it reads no cache entry and performs no
upstream call (its arguments are exactly the data it can depend
on). -/
def healthHandler (cfgTtl : Nat) (now : Nat) : HealthResponse :=
  { status := "ok", timestamp := now, cacheTTL := cfgTtl }

/-! ### Sample values used by concrete statements -/

def sampleMetals2000 : MetalsData :=
  { gold := { price := some 2000, timestamp := 7 }
    silver := { price := some 25, timestamp := 7 } }

def sampleYRaw : YRaw :=
  { regularMarketPrice := 5000
    regularMarketPreviousClose := 4950
    regularMarketChange := 50
    regularMarketChangePercent := 1
    marketState := "REGULAR"
    regularMarketTime := 3 }

def sampleStocks : StocksData := normalizeStocks sampleYRaw sampleYRaw

def emptyRates : MetalsRates :=
  { USDXAU := none, XAU := none, USDXAG := none, XAG := none }

/-! ### Claim theorems -/

/-- C8: the /api/health endpoint always answers with `status = "ok"`
together with the timestamp and the configured cache ttl; its body is
a function of the configuration and the clock only, so no cache state
and no upstream call can influence it. -/
theorem c8_health_always_ok (cfgTtl now : Nat) :
    healthHandler cfgTtl now =
      { status := "ok", timestamp := now, cacheTTL := cfgTtl } := rfl

/-- C1 (code bug evaluation): the cache key `metals_prices` is written
at time 0 with the default ttl 30.  At time 20 (inside the ttl) a
fetch returns the cached value, but at time 40 (after the ttl) a
failing fetch propagates the error instead of returning the stored
value as a stale fallback: the catch block re-reads the cache with
node-cache `get`, which reports expired entries as absent, so the
fallback the comment promises (`even if expired`) can never see an
expired entry. -/
theorem c1_expired_entry_not_returned :
    (fetchMetalsPrices 30
        (cacheSet emptyCache "metals_prices" sampleMetals2000 30 0) 20
        (Except.error "network down")).1 = Except.ok sampleMetals2000
  ∧ (fetchMetalsPrices 30
        (cacheSet emptyCache "metals_prices" sampleMetals2000 30 0) 40
        (Except.error "network down")).1 = Except.error "network down" :=
  ⟨rfl, rfl⟩

/-- C3: for a fulfilled metals result with gold spot price p and
silver price q, the /api/prices response synthesizes
previousClose = p·0.998, change = p·0.002, changePercent = 0.2 for
gold and previousClose = q·0.995, change = q·0.005,
changePercent = 0.5 for silver; in particular at gold price 2000 the
synthesized values are exactly 1996, 4 and 0.2. -/
theorem c3_metals_synthetic_change (m : MetalsData)
    (sR : Except String StocksData) (now : Nat) (p q : ℚ)
    (hg : m.gold.price = some p) (hs : m.silver.price = some q) :
    ((pricesHandler (Except.ok m) sR now).gold.map MetalOut.previousClose
        = some (p * 0.998))
  ∧ ((pricesHandler (Except.ok m) sR now).gold.map MetalOut.change
        = some (p * 0.002))
  ∧ ((pricesHandler (Except.ok m) sR now).gold.map MetalOut.changePercent
        = some 0.2)
  ∧ ((pricesHandler (Except.ok m) sR now).silver.map MetalOut.previousClose
        = some (q * 0.995))
  ∧ ((pricesHandler (Except.ok m) sR now).silver.map MetalOut.change
        = some (q * 0.005))
  ∧ ((pricesHandler (Except.ok m) sR now).silver.map MetalOut.changePercent
        = some 0.5)
  ∧ ((pricesHandler (Except.ok sampleMetals2000) sR now).gold.map
        MetalOut.previousClose = some 1996)
  ∧ ((pricesHandler (Except.ok sampleMetals2000) sR now).gold.map
        MetalOut.change = some 4)
  ∧ ((pricesHandler (Except.ok sampleMetals2000) sR now).gold.map
        MetalOut.changePercent = some 0.2) := by
  refine ⟨?_, ?_, ?_, ?_, ?_, ?_, ?_, ?_, ?_⟩ <;>
    simp [pricesHandler, numOrZero, Except.toOption, hg, hs, sampleMetals2000] <;>
    norm_num

/-- C3 witness: the theorem applied to the sample metals payload with
gold at 2000 and silver at 25. -/
theorem c3_metals_synthetic_change_witness :
    ((pricesHandler (Except.ok sampleMetals2000) (Except.error "down") 0).gold.map
        MetalOut.previousClose = some 1996)
  ∧ ((pricesHandler (Except.ok sampleMetals2000) (Except.error "down") 0).gold.map
        MetalOut.change = some 4)
  ∧ ((pricesHandler (Except.ok sampleMetals2000) (Except.error "down") 0).gold.map
        MetalOut.changePercent = some 0.2) := by
  have h := c3_metals_synthetic_change sampleMetals2000 (Except.error "down") 0
    2000 25 rfl rfl
  exact ⟨h.2.2.2.2.2.2.1, h.2.2.2.2.2.2.2.1, h.2.2.2.2.2.2.2.2⟩

/-- C10: when the metals rates hold neither a usable direct USD rate
nor an invertible rate for either metal, the normalized price is
`none`, yet the /api/prices response still emits a fully populated
object for each metal in which JS arithmetic on the null price makes
previousClose and change 0 while changePercent keeps its fixed
constant (0.2 gold, 0.5 silver). -/
theorem c10_null_price_emitted (resp : MetalsApiOk)
    (sR : Except String StocksData) (now : Nat)
    (hgd : truthyNum resp.rates.USDXAU = none)
    (hgi : truthyNum resp.rates.XAU = none)
    (hsd : truthyNum resp.rates.USDXAG = none)
    (hsi : truthyNum resp.rates.XAG = none) :
    (normalizeMetals resp).gold.price = none
  ∧ (normalizeMetals resp).silver.price = none
  ∧ (pricesHandler (Except.ok (normalizeMetals resp)) sR now).gold =
      some { symbol := "XAU", name := "Gold", price := none,
             previousClose := 0, change := 0, changePercent := 0.2,
             unit := "USD/oz" }
  ∧ (pricesHandler (Except.ok (normalizeMetals resp)) sR now).silver =
      some { symbol := "XAG", name := "Silver", price := none,
             previousClose := 0, change := 0, changePercent := 0.5,
             unit := "USD/oz" } := by
  have hg : (normalizeMetals resp).gold.price = none := by
    simp [normalizeMetals, metalPrice, hgd, hgi]
  have hs : (normalizeMetals resp).silver.price = none := by
    simp [normalizeMetals, metalPrice, hsd, hsi]
  refine ⟨hg, hs, ?_, ?_⟩ <;>
    simp [pricesHandler, numOrZero, Except.toOption, hg, hs]

/-- C10 witness: the theorem applied to a response whose rates object
is entirely absent. -/
theorem c10_null_price_emitted_witness :
    (normalizeMetals { rates := emptyRates, timestamp := 0 }).gold.price = none
  ∧ (pricesHandler
        (Except.ok (normalizeMetals { rates := emptyRates, timestamp := 0 }))
        (Except.error "down") 0).gold =
      some { symbol := "XAU", name := "Gold", price := none,
             previousClose := 0, change := 0, changePercent := 0.2,
             unit := "USD/oz" } := by
  have h := c10_null_price_emitted { rates := emptyRates, timestamp := 0 }
    (Except.error "down") 0 rfl rfl rfl rfl
  exact ⟨h.1, h.2.2.1⟩

/-- Number of occurrences of a warning string in the (possibly
omitted) warnings field of a /api/prices response. -/
def warningCount (r : PricesResponse) (w : String) : Nat :=
  (r.warnings.getD []).count w

/-- C2: for every combination of per-source outcomes the /api/prices
envelope has `success = true`; a failed source contributes exactly one
warning and leaves both of its data fields absent, a fulfilled source
populates both of its fields and contributes no failure warning; a
single-source news endpoint answers `success:false` with the error
message and an empty article list when its fetcher fails, and the
performance endpoint does the same on a miss whose computation
throws. -/
theorem c2_partial_failure_envelope (mR : Except String MetalsData)
    (sR : Except String StocksData) (now : Nat)
    (nR : Except String (List NewsArticle))
    (pc : CacheT (List PerfRecord)) (pe : String) :
    ((pricesHandler mR sR now).success = true)
  ∧ (∀ e, mR = Except.error e →
      (pricesHandler mR sR now).gold = none
      ∧ (pricesHandler mR sR now).silver = none
      ∧ warningCount (pricesHandler mR sR now) "Unable to fetch metals prices" = 1)
  ∧ (∀ m, mR = Except.ok m →
      (pricesHandler mR sR now).gold ≠ none
      ∧ (pricesHandler mR sR now).silver ≠ none
      ∧ warningCount (pricesHandler mR sR now) "Unable to fetch metals prices" = 0)
  ∧ (∀ e, sR = Except.error e →
      (pricesHandler mR sR now).sp500 = none
      ∧ (pricesHandler mR sR now).dow = none
      ∧ warningCount (pricesHandler mR sR now) "Unable to fetch stock indices" = 1)
  ∧ (∀ s, sR = Except.ok s →
      (pricesHandler mR sR now).sp500 ≠ none
      ∧ (pricesHandler mR sR now).dow ≠ none
      ∧ warningCount (pricesHandler mR sR now) "Unable to fetch stock indices" = 0)
  ∧ (∀ e, nR = Except.error e →
      newsEndpoint nR now =
        { success := false, articles := [], error := some e, lastUpdated := none })
  ∧ (cacheGet pc "performance_data" now = none →
      (perfHandler pc now (Except.error pe)).1 =
        { success := false, data := [], error := some pe }) := by
  refine ⟨?_, ?_, ?_, ?_, ?_, ?_, ?_⟩
  · rfl
  · rintro e rfl
    refine ⟨rfl, rfl, ?_⟩
    cases sR with
    | error s => simp [pricesHandler, warningCount]
    | ok s =>
        cases hs : s.stale <;> simp [pricesHandler, warningCount, hs]
  · rintro m rfl
    refine ⟨?_, ?_, ?_⟩
    · simp [pricesHandler, Except.toOption]
    · simp [pricesHandler, Except.toOption]
    · cases hm : m.stale <;>
        (cases sR with
         | error s => simp [pricesHandler, warningCount, hm]
         | ok s =>
             cases hs : s.stale <;>
               simp [pricesHandler, warningCount, hm, hs])
  · rintro e rfl
    refine ⟨rfl, rfl, ?_⟩
    cases mR with
    | error m => simp [pricesHandler, warningCount]
    | ok m =>
        cases hm : m.stale <;> simp [pricesHandler, warningCount, hm]
  · rintro s rfl
    refine ⟨?_, ?_, ?_⟩
    · simp [pricesHandler, Except.toOption]
    · simp [pricesHandler, Except.toOption]
    · cases hs : s.stale <;>
        (cases mR with
         | error m => simp [pricesHandler, warningCount, hs]
         | ok m =>
             cases hm : m.stale <;>
               simp [pricesHandler, warningCount, hm, hs])
  · rintro e rfl
    rfl
  · intro hmiss
    simp [perfHandler, hmiss]

/-- C2 witness: metals failing, stocks succeeding, news failing, a
performance miss whose computation throws. -/
theorem c2_partial_failure_envelope_witness :
    (pricesHandler (Except.error "metals down") (Except.ok sampleStocks) 0).gold = none
  ∧ warningCount (pricesHandler (Except.error "metals down") (Except.ok sampleStocks) 0)
      "Unable to fetch metals prices" = 1
  ∧ (pricesHandler (Except.error "metals down") (Except.ok sampleStocks) 0).sp500 ≠ none
  ∧ warningCount (pricesHandler (Except.error "metals down") (Except.ok sampleStocks) 0)
      "Unable to fetch stock indices" = 0
  ∧ newsEndpoint (Except.error "news down") 0 =
      { success := false, articles := [], error := some "news down", lastUpdated := none }
  ∧ (perfHandler emptyCache 0 (Except.error "perf down")).1 =
      { success := false, data := [], error := some "perf down" } := by
  have h := c2_partial_failure_envelope (Except.error "metals down")
    (Except.ok sampleStocks) 0 (Except.error "news down") emptyCache "perf down"
  exact ⟨(h.2.1 _ rfl).1, (h.2.1 _ rfl).2.2, (h.2.2.2.2.1 _ rfl).1,
    (h.2.2.2.2.1 _ rfl).2.2, h.2.2.2.2.2.1 _ rfl, h.2.2.2.2.2.2 rfl⟩

/-- C6: on a cache miss followed by a successful upstream call, each
fetcher writes its key with its own ttl: metals prices and stock
indices use the global default ttl (`CACHE_TTL`, 30 when not
configured and never 0), every news variant writes 600 seconds except
the general-purpose news feed at 43200 seconds, and historical
performance writes 3600 seconds.  The stored entry's expiry is the
write time plus that ttl. -/
theorem c6_per_source_ttls (env : Option Nat) (now : Nat)
    (cm : CacheT MetalsData) (cs : CacheT StocksData)
    (cn : CacheT (List NewsArticle)) (cmn cin cgn : CacheT (List MacroArticle))
    (cb : CacheT (List Headline)) (cp : CacheT (List PerfRecord))
    (mresp : MetalsApiOk) (sresp : YRaw × YRaw) (nresp : NewsApiOk)
    (pins : List (String × Except String (Option (List ℚ))))
    (hm : cacheGet cm "metals_prices" now = none)
    (hs : cacheGet cs "stock_indices" now = none)
    (hn : cacheGet cn "news" now = none)
    (hmn : cacheGet cmn "macro_news" now = none)
    (hin : cacheGet cin "inflation_news" now = none)
    (hgn : cacheGet cgn "gold_news" now = none)
    (hb : cacheGet cb "bullish_headlines" now = none)
    (hp : cacheGet cp "performance_data" now = none) :
    cacheTtlOf none = 30
  ∧ cacheTtlOf env ≠ 0
  ∧ (fetchMetalsPrices (cacheTtlOf env) cm now (Except.ok mresp)).2 "metals_prices"
      = some (normalizeMetals mresp, now + cacheTtlOf env)
  ∧ (fetchStockIndices (cacheTtlOf env) cs now (Except.ok sresp)).2 "stock_indices"
      = some (normalizeStocks sresp.1 sresp.2, now + cacheTtlOf env)
  ∧ (fetchNews cn now (Except.ok nresp)).2 "news"
      = some (nresp.articles.map projectNews, now + 43200)
  ∧ (fetchMacroNews cmn now (Except.ok nresp)).2 "macro_news"
      = some (macroArticles nresp.articles, now + 600)
  ∧ (fetchInflationNews cin now (Except.ok nresp)).2 "inflation_news"
      = some (macroArticles nresp.articles, now + 600)
  ∧ (fetchGoldNews cgn now (Except.ok nresp)).2 "gold_news"
      = some (macroArticles nresp.articles, now + 600)
  ∧ (fetchBullishHeadlines cb now (Except.ok nresp)).2 "bullish_headlines"
      = some (bullishHeadlines nresp.articles, now + 600)
  ∧ (perfHandler cp now (Except.ok pins)).2 "performance_data"
      = some (performanceData pins, now + 3600) := by
  have hzero : cacheTtlOf env ≠ 0 := by
    cases env with
    | none => simp [cacheTtlOf]
    | some n =>
        by_cases hn0 : n = 0 <;> simp [cacheTtlOf, hn0]
  refine ⟨rfl, hzero, ?_, ?_, ?_, ?_, ?_, ?_, ?_, ?_⟩ <;>
    simp [fetchMetalsPrices, fetchStockIndices, fetchNews, fetchMacroNews,
      fetchInflationNews, fetchGoldNews, fetchBullishHeadlines, perfHandler,
      cacheSet, hm, hs, hn, hmn, hin, hgn, hb, hp, hzero]

/-- C6 witness: the theorem applied to empty caches at time 0 with an
unconfigured ttl and a response with no articles. -/
theorem c6_per_source_ttls_witness :
    (fetchNews emptyCache 0 (Except.ok { articles := [] })).2 "news"
      = some (List.map projectNews [], 0 + 43200)
  ∧ (fetchMacroNews emptyCache 0 (Except.ok { articles := [] })).2 "macro_news"
      = some (macroArticles [], 0 + 600)
  ∧ (perfHandler emptyCache 0 (Except.ok [])).2 "performance_data"
      = some (performanceData [], 0 + 3600) := by
  have h := c6_per_source_ttls none 0 emptyCache emptyCache emptyCache emptyCache
    emptyCache emptyCache emptyCache emptyCache
    { rates := emptyRates, timestamp := 0 } (sampleYRaw, sampleYRaw)
    { articles := [] } [] rfl rfl rfl rfl rfl rfl rfl rfl
  exact ⟨h.2.2.2.2.1, h.2.2.2.2.2.1, h.2.2.2.2.2.2.2.2.2⟩

/-- C7: the performance endpoint computes the total return as
`round((lastClose - firstClose) / firstClose * 100)` (so closes 100
then 250 give 150), its output is the live per-symbol results unioned
with the two hardcoded synthetic records sorted descending by return,
and a symbol whose history fetch throws is dropped without affecting
any other symbol's result and without adding any warning or error
field. -/
theorem c7_performance_returns
    (inputs l1 l2 : List (String × Except String (Option (List ℚ))))
    (nm e : String) :
    computeReturn 100 250 = 150
  ∧ (performanceData inputs).Pairwise (fun a b : PerfRecord => b.ret ≤ a.ret)
  ∧ (performanceData inputs).Perm
      ((inputs.map fun p => fetchHistory p.1 p.2).filterMap id ++ synthRecords)
  ∧ performanceData (l1 ++ (nm, Except.error e) :: l2) = performanceData (l1 ++ l2) := by
  refine ⟨?_, ?_, ?_, ?_⟩
  · norm_num [computeReturn, jsRound]
  · have h := @List.sorted_mergeSort PerfRecord
      (fun a b : PerfRecord => decide (b.ret ≤ a.ret))
      (fun a b c hab hbc => by
        simp only [decide_eq_true_eq] at *
        exact le_trans hbc hab)
      (fun a b => by
        simp only [Bool.or_eq_true, decide_eq_true_eq]
        exact le_total b.ret a.ret)
      ((inputs.map fun p => fetchHistory p.1 p.2).filterMap id ++ synthRecords)
    exact h.imp (fun hd => by simpa using hd)
  · exact List.mergeSort_perm _ _
  · simp [performanceData, fetchHistory, List.filterMap_append]

/-- C9: the per-symbol history fetch absorbs its own error into
`null`, a too-short or missing history is excluded exactly like a
failed fetch, and every computed performance payload contains the two
synthetic records and hence at least two entries even when every live
symbol fails. -/
theorem c9_performance_isolation (nm e : String) (closes : List ℚ)
    (hshort : closes.length < 2)
    (inputs : List (String × Except String (Option (List ℚ)))) :
    fetchHistory nm (Except.error e) = none
  ∧ fetchHistory nm (Except.ok none) = none
  ∧ fetchHistory nm (Except.ok (some closes)) = none
  ∧ ({ name := "CDs/Savings", ret := 49 } : PerfRecord) ∈ performanceData inputs
  ∧ ({ name := "Cash (USD)", ret := -44 } : PerfRecord) ∈ performanceData inputs
  ∧ 2 ≤ (performanceData inputs).length := by
  refine ⟨rfl, rfl, ?_, ?_, ?_, ?_⟩
  · simp [fetchHistory]
    omega
  · simp [performanceData, perfSort, synthRecords]
  · simp [performanceData, perfSort, synthRecords]
  · simp [performanceData, perfSort, synthRecords]

/-- C9 witness: a one-point history is excluded and the empty input
list still yields at least the two synthetic records. -/
theorem c9_performance_isolation_witness :
    fetchHistory "Gold" (Except.ok (some [100])) = none
  ∧ ({ name := "CDs/Savings", ret := 49 } : PerfRecord) ∈ performanceData []
  ∧ 2 ≤ (performanceData []).length := by
  have h := c9_performance_isolation "Gold" "boom" [100] (by decide) []
  exact ⟨h.2.2.1, h.2.2.2.1, h.2.2.2.2.2⟩

/-! ### Deduplication lemmas (C4) -/

/-- The dedup filter only drops elements: its output is a sublist of
its input. -/
theorem dedupFilter_sublist (l : List RawArticle) :
    ∀ seen, (dedupFilter seen l).Sublist l := by
  induction l with
  | nil => intro seen; simp [dedupFilter]
  | cons a rest ih =>
      intro seen
      by_cases hk : articleKey a ∈ seen <;> simp only [dedupFilter, hk] <;>
        simp only [if_true, if_false, reduceIte]
      · exact (ih seen).trans (List.sublist_cons_self a rest)
      · exact (ih (articleKey a :: seen)).cons₂ a

/-- Keys of the dedup output are pairwise distinct and avoid the seen
set. -/
theorem dedupFilter_keys_nodup (l : List RawArticle) :
    ∀ seen, ((dedupFilter seen l).map articleKey).Nodup
      ∧ ∀ k ∈ (dedupFilter seen l).map articleKey, k ∉ seen := by
  induction l with
  | nil => intro seen; simp [dedupFilter]
  | cons a rest ih =>
      intro seen
      by_cases hk : articleKey a ∈ seen
      · simpa [dedupFilter, hk] using ih seen
      · have hrec := ih (articleKey a :: seen)
        refine ⟨?_, ?_⟩
        · simp only [dedupFilter, hk, reduceIte, List.map_cons, List.nodup_cons]
          refine ⟨fun hmem => ?_, hrec.1⟩
          exact (hrec.2 _ hmem) (List.mem_cons_self _ _)
        · intro k hkmem
          simp only [dedupFilter, hk, reduceIte, List.map_cons,
            List.mem_cons] at hkmem
          rcases hkmem with h | h
          · simpa [h] using hk
          · exact fun hs => (hrec.2 _ h) (List.mem_cons_of_mem _ hs)

/-- Every input article's key is either already seen or represented
in the dedup output. -/
theorem dedupFilter_covers (l : List RawArticle) :
    ∀ seen, ∀ a ∈ l,
      articleKey a ∈ seen ∨ articleKey a ∈ (dedupFilter seen l).map articleKey := by
  induction l with
  | nil => intro seen a ha; cases ha
  | cons x rest ih =>
      intro seen a ha
      by_cases hk : articleKey x ∈ seen
      · rcases List.mem_cons.mp ha with rfl | ha
        · left; exact hk
        · simpa [dedupFilter, hk] using ih seen a ha
      · rcases List.mem_cons.mp ha with rfl | ha
        · right; simp [dedupFilter, hk]
        · rcases ih (articleKey x :: seen) a ha with h | h
          · rcases List.mem_cons.mp h with h | h
            · right; simp [dedupFilter, hk, h]
            · left; exact h
          · right; simp only [dedupFilter, hk, reduceIte, List.map_cons]
            exact List.mem_cons_of_mem _ h

/-- Every surviving article is the first element of the input whose
key is its key (relative to an initial seen set it does not belong
to). -/
theorem dedupFilter_first_occ (l : List RawArticle) :
    ∀ seen, ∀ a ∈ dedupFilter seen l,
      articleKey a ∉ seen
      ∧ ∃ l1 l2, l = l1 ++ a :: l2 ∧ ∀ b ∈ l1, articleKey b ≠ articleKey a := by
  induction l with
  | nil => intro seen a ha; simp [dedupFilter] at ha
  | cons x rest ih =>
      intro seen a ha
      by_cases hk : articleKey x ∈ seen
      · simp only [dedupFilter, hk, reduceIte] at ha
        obtain ⟨hnot, l1, l2, hsplit, hfirst⟩ := ih seen a ha
        refine ⟨hnot, x :: l1, l2, by simp [hsplit], ?_⟩
        intro b hb
        rcases List.mem_cons.mp hb with rfl | hb
        · intro heq; exact hnot (heq ▸ hk)
        · exact hfirst b hb
      · simp only [dedupFilter, hk, reduceIte, List.mem_cons] at ha
        rcases ha with rfl | ha
        · exact ⟨hk, [], rest, rfl, by simp⟩
        · obtain ⟨hnot, l1, l2, hsplit, hfirst⟩ := ih (articleKey x :: seen) a ha
          have hne : articleKey x ≠ articleKey a := fun heq =>
            hnot (heq ▸ List.mem_cons_self _ _)
          refine ⟨fun hs => hnot (List.mem_cons_of_mem _ hs),
            x :: l1, l2, by simp [hsplit], ?_⟩
          intro b hb
          rcases List.mem_cons.mp hb with rfl | hb
          · exact hne
          · exact hfirst b hb

/-- The key the spec sentence describes, modelled from the spec words
for comparison with the code's `normKey`: the first 50 characters of
the fully normalized (lowercased and stripped) title, rather than the
normalization of the first 50 characters. -/
def specNorm (t : List Char) : List Char :=
  ((t.map Char.toLower).filter isKeyChar).take 50

def titleFifty : List Char := List.replicate 50 'a' ++ ['b', 'b', 'b', 'b']

def titleFortyNine : List Char := List.replicate 49 'a' ++ ['-', 'a', 'b']

def rawFifty : RawArticle :=
  { title := some titleFifty, description := none, sourceName := "s1",
    url := "u1", urlToImage := none, publishedAt := "p1" }

def rawFortyNine : RawArticle :=
  { title := some titleFortyNine, description := none, sourceName := "s2",
    url := "u2", urlToImage := none, publishedAt := "p2" }

/-- C4 counterexample: two titles that agree on the first 50
normalized (stripped) characters but whose code keys — built by
stripping only the first 50 raw characters — differ, so the dedup of
the macro news fetcher keeps both articles instead of collapsing them
to one. -/
theorem c4_first_fifty_normalized_not_collapsed :
    specNorm titleFifty = specNorm titleFortyNine
  ∧ normKey titleFifty ≠ normKey titleFortyNine
  ∧ (macroArticles [rawFifty, rawFortyNine]).length = 2 := by decide

/-- C4 amended: the dedup key of each article is the lowercased
title, truncated to 50 characters and then stripped of
non-alphanumeric characters; within one fetch the output is a
subsequence of the input with pairwise distinct keys, every input
key is represented, and each kept article is the first input article
bearing its key. -/
theorem c4_dedup_by_truncated_key (l : List RawArticle) :
    (dedupFilter [] l).Sublist l
  ∧ ((dedupFilter [] l).map articleKey).Nodup
  ∧ (∀ a ∈ l, articleKey a ∈ (dedupFilter [] l).map articleKey)
  ∧ (∀ a ∈ dedupFilter [] l,
      ∃ l1 l2, l = l1 ++ a :: l2 ∧ ∀ b ∈ l1, articleKey b ≠ articleKey a) := by
  refine ⟨dedupFilter_sublist l [], (dedupFilter_keys_nodup l []).1, ?_, ?_⟩
  · intro a ha
    rcases dedupFilter_covers l [] a ha with h | h
    · cases h
    · exact h
  · intro a ha
    exact (dedupFilter_first_occ l [] a ha).2

/-- C4 witness: the amended theorem applied to a concrete one-article
fetch. -/
theorem c4_dedup_by_truncated_key_witness :
    (dedupFilter [] [rawFifty]).Sublist [rawFifty]
  ∧ articleKey rawFifty ∈ (dedupFilter [] [rawFifty]).map articleKey := by
  have h := c4_dedup_by_truncated_key [rawFifty]
  exact ⟨h.1, h.2.2.1 rawFifty (List.mem_cons_self _ _)⟩

/-! ### Placeholder-title filtering (C5) -/

def removedRaw : RawArticle :=
  { title := some "[Removed]".toList, description := none,
    sourceName := "src", url := "u", urlToImage := none, publishedAt := "p" }

/-- C5 counterexample: the general news fetcher applies no title
filter at all, so an article whose title is exactly the provider's
`[Removed]` placeholder passes straight through to the endpoint
output; the macro-style dedup fetchers keep it too. -/
theorem c5_removed_title_not_dropped :
    (fetchNews emptyCache 0 (Except.ok { articles := [removedRaw] })).1 =
      Except.ok [{ title := some "[Removed]".toList, description := none,
                   source := "src", url := "u", publishedAt := "p" }]
  ∧ (macroArticles [removedRaw]).length = 1 := by
  refine ⟨rfl, by decide⟩

/-- Every article kept by the bullish filter has a nonempty title
free of the redaction marker, whatever the seen set. -/
theorem bullishFilter_titles (l : List RawArticle) :
    ∀ seen, ∀ a ∈ bullishFilter seen l,
      a.title ≠ none ∧ a.title ≠ some []
      ∧ ∀ t, a.title = some t → hasSubstr t removedMarker = false := by
  induction l with
  | nil => intro seen a ha; simp [bullishFilter] at ha
  | cons x rest ih =>
      intro seen a ha
      by_cases hk : articleKey x ∈ seen
      · simp only [bullishFilter, hk, reduceIte] at ha
        exact ih seen a ha
      · simp only [bullishFilter, hk, reduceIte] at ha
        cases hx : x.title with
        | none =>
            simp only [hx] at ha
            exact ih seen a ha
        | some t =>
            simp only [hx] at ha
            by_cases hbad : (t.isEmpty || hasSubstr t removedMarker) = true
            · rw [if_pos hbad] at ha
              exact ih seen a ha
            · rw [if_neg hbad] at ha
              rcases List.mem_cons.mp ha with rfl | ha
              · have hsplit := hbad
                simp only [Bool.or_eq_true, not_or, Bool.not_eq_true] at hsplit
                refine ⟨by simp [hx], ?_, ?_⟩
                · rw [hx]
                  intro hcontra
                  have : t = [] := by simpa using hcontra
                  subst this
                  simp [List.isEmpty] at hsplit
                · intro u hu
                  rw [hx] at hu
                  cases hu
                  exact hsplit.2
              · exact ih (articleKey x :: seen) a ha
  
/-- C5 amended: only the bullish-headlines fetcher performs the
null/placeholder drop — every headline it emits has a nonempty title
that does not contain `[Removed]` — while the other news fetchers
(general, macro, inflation, gold) apply no such filter and can emit
placeholder-titled articles. -/
theorem c5_only_bullish_drops_removed (raws : List RawArticle) :
    ∀ h ∈ bullishHeadlines raws,
      h.title ≠ none ∧ h.title ≠ some []
      ∧ ∀ t, h.title = some t → hasSubstr t removedMarker = false := by
  intro h hmem
  obtain ⟨a, hamem, rfl⟩ :=
    List.mem_map.mp (List.mem_of_mem_take hmem)
  have := bullishFilter_titles raws [] a hamem
  simpa [projectHeadline] using this

def goldRaw : RawArticle :=
  { title := some ['g', 'o', 'l', 'd'], description := none,
    sourceName := "s", url := "u", urlToImage := none, publishedAt := "p" }

/-- C5 witness: the amended theorem applied to a concrete fetch with
one ordinary article. -/
theorem c5_only_bullish_drops_removed_witness :
    (projectHeadline goldRaw).title ≠ none
  ∧ hasSubstr ['g', 'o', 'l', 'd'] removedMarker = false := by
  have h := c5_only_bullish_drops_removed [goldRaw]
    (projectHeadline goldRaw) (by decide)
  exact ⟨h.1, h.2.2 ['g', 'o', 'l', 'd'] rfl⟩
